import Mathlib

/-!
Shallow embedding of the eduf_backend analytics core
(src/routers/analytics.py and src/models/analytics.py).

Conventions of the embedding:
* Python floats are modelled as exact rationals (ℚ); Python ints as Int/Nat.
* `datetime` values are modelled as integer numbers of seconds; a
  `timedelta(days=1)` is 86400 seconds.  Each request receives a single
  `now` value standing for the `datetime.utcnow()` calls made during it.
* Fallible Python code is modelled with `Except PyError`; the SQLAlchemy
  session's transaction semantics are modelled by returning the original
  database state when an uncaught exception escapes the handler (nothing
  is committed, so the rollback leaves the store unchanged).
* SQLAlchemy column defaults (`default=0`, `default=datetime.utcnow`) are
  insert-time defaults: they are applied at flush, not at object
  construction.  Mapped-instance attributes are therefore `Option`s: a
  freshly constructed instance reads `None` in every column the
  constructor call did not set, and Python arithmetic on such a `None`
  (the `+= 1` at line 147 of the router) raises `TypeError`.  Rows
  hydrated from the database carry the values that were written at
  insert time.
-/

/-- The failure kinds the embedded code can surface. -/
inductive PyError where
  | attributeError
  | typeError
  | zeroDivisionError
  | httpException (status : Nat) (detail : String)
  | serviceUnavailable
deriving DecidableEq, Repr

/-- Pydantic model `QuestionSubmission` (src/routers/analytics.py lines 18-23).
It declares exactly these five fields; in particular there is no
`time_taken` field on a question. -/
structure QuestionSubmission where
  question_text : String
  correct_answer : String
  student_answer : String
  topic : String
  subtopic : String
deriving DecidableEq, Repr, Inhabited

/-- Pydantic model `TestSubmission` (lines 25-27): the questions plus the
submission-level `time_taken` in seconds. -/
structure TestSubmission where
  questions : List QuestionSubmission
  time_taken : Int
deriving DecidableEq, Repr

/-- Python attribute access `q.time_taken` on a `QuestionSubmission`.
The pydantic model declares no such field, so the access raises
`AttributeError` (this is what lines 67 and 93 of the router do). -/
def QuestionSubmission.time_taken_attr (_q : QuestionSubmission) : Except PyError Int :=
  .error .attributeError

/-- One entry of the per-question detail list stored under a topic
(lines 44-49). -/
structure QuestionDetail where
  question : String
  correct_answer : String
  student_answer : String
  is_correct : Bool
deriving DecidableEq, Repr

/-- Per-topic accumulator holding the correct and total tallies and the
per-question detail list (line 39). -/
structure TopicData where
  correct : Nat
  total : Nat
  questions : List QuestionDetail
deriving DecidableEq, Repr

/-- Exact string comparison `q.student_answer == q.correct_answer` used
at lines 31, 41, 118 and 132. -/
def isCorrect (q : QuestionSubmission) : Bool :=
  q.student_answer == q.correct_answer

/-- Count `sum(1 for q in questions if q.student_answer == q.correct_answer)`
(line 31). -/
def correctCount (qs : List QuestionSubmission) : Nat :=
  qs.countP isCorrect

/-- The detail record appended for one question (lines 44-49). -/
def detailOf (q : QuestionSubmission) : QuestionDetail :=
  { question := q.question_text
    correct_answer := q.correct_answer
    student_answer := q.student_answer
    is_correct := isCorrect q }

/-- One iteration of the topic-grouping loop (lines 37-49): insert the
topic with zeroed counters if absent, then add this question's tallies.
The mapping is an insertion-ordered association list, as a Python dict is. -/
def addToTopic (acc : List (String × TopicData)) (q : QuestionSubmission) :
    List (String × TopicData) :=
  if acc.any (fun p => p.1 == q.topic) then
    acc.map (fun p =>
      if p.1 == q.topic then
        (p.1, { correct := p.2.correct + (if isCorrect q then 1 else 0)
                total := p.2.total + 1
                questions := p.2.questions ++ [detailOf q] })
      else p)
  else
    acc ++ [(q.topic,
      { correct := if isCorrect q then 1 else 0
        total := 1
        questions := [detailOf q] })]

/-- Mapping `topic_performance` built by the loop at lines 36-49. -/
def topicPerformance (qs : List QuestionSubmission) : List (String × TopicData) :=
  qs.foldl addToTopic []

/-- Overall score `score = (correct_count / total_questions) * 100` (line 33). -/
def scoreOf (qs : List QuestionSubmission) : ℚ :=
  ((correctCount qs : ℚ) / (qs.length : ℚ)) * 100

/-- The insight payload returned at lines 89-94 and stored as
`TestResult.ai_feedback`. -/
structure Payload where
  analysis : String
  topic_performance : List (String × TopicData)
  score : ℚ
  time_taken : Int
deriving DecidableEq, Repr

/-- Persisted `TestResult` row (src/models/analytics.py lines 27-41).
The primary key is `id`; `completed_at` defaults to the time of insertion. -/
structure TestResult where
  id : Nat
  student_id : Int
  test_id : Int
  score : ℚ
  completed_at : Int
  ai_feedback : Payload
  total_questions : Nat
  correct_answers : Nat
  topics_summary : List (String × TopicData)
  time_taken : Int
deriving DecidableEq, Repr

/-- The historical framing computed at lines 52-59: `none` when there are no
previous results, otherwise the previous average together with whether the
current score is strictly above it.  It only feeds the prompt text. -/
def historicalContext (score : ℚ) (previous_scores : List ℚ) : Option (ℚ × Bool) :=
  if previous_scores.isEmpty then none
  else
    let avg := previous_scores.sum / (previous_scores.length : ℚ)
    some (avg, decide (avg < score))

/-- The data interpolated into the fixed prompt template (lines 62-80).
The surrounding English text is constant, so the prompt is modelled by the
tuple of interpolated values. -/
structure Prompt where
  score : ℚ
  correct_count : Nat
  total_questions : Nat
  time_taken : Int
  topic_performance : List (String × TopicData)
  historical_context : Option (ℚ × Bool)
deriving Repr

/-- Embedding of `generate_ai_insights` (lines 29-94).  `llm` is the external Groq
collaborator (`groq_client.chat.completions.create`, lines 82-87), treated
as an opaque fallible function from the prompt to the response text.

Order of evaluation follows the source: the division at line 33 raises
`ZeroDivisionError` when `questions` is empty; otherwise the prompt
construction at line 67 reads `questions[0].time_taken`, which raises
`AttributeError` because `QuestionSubmission` has no such field; only then
would the collaborator be called and the payload of lines 89-94 built. -/
def generate_ai_insights (llm : Prompt → Except PyError String)
    (questions : List QuestionSubmission) (previous_results : List TestResult) :
    Except PyError Payload :=
  let correct_count := correctCount questions
  let total_questions := questions.length
  if total_questions = 0 then
    .error .zeroDivisionError
  else
    let score := scoreOf questions
    let tp := topicPerformance questions
    let hc := historicalContext score (previous_results.map (fun r => r.score))
    match (questions.headD default).time_taken_attr with
    | .error e => .error e
    | .ok tt =>
      match llm { score := score
                  correct_count := correct_count
                  total_questions := total_questions
                  time_taken := tt
                  topic_performance := tp
                  historical_context := hc } with
      | .error e => .error e
      | .ok analysis =>
        .ok { analysis := analysis
              topic_performance := tp
              score := score
              time_taken := tt }

/-- Persisted `TestQuestion` row (src/models/analytics.py lines 15-25);
the surrogate primary key is irrelevant to the router logic and omitted. -/
structure TestQuestion where
  test_result_id : Nat
  question_text : String
  correct_answer : String
  student_answer : String
  is_correct : Bool
  topic : String
  subtopic : String
deriving DecidableEq, Repr

/-- Mapped `StudentAnalytics` instance (src/models/analytics.py lines 43-54),
unique per student.  Every non-key attribute is an `Option`: the column
defaults (`default=0`, `default=datetime.utcnow`) are insert-time defaults,
so a freshly constructed instance reads `None` in all of them until a
flush, and the JSON columns can also be NULL in the database.  The
untouched `historical_performance` JSON column is omitted. -/
structure StudentAnalytics where
  student_id : Int
  total_flashcards_viewed : Option Nat
  total_tests_taken : Option Nat
  average_test_score : Option ℚ
  weak_topics : Option (List String)
  strong_topics : Option (List String)
  learning_streak : Option Nat
  last_activity : Option Int
deriving DecidableEq, Repr

/-- A fresh `StudentAnalytics(student_id=student_id)` (line 144 of the
router): the declarative constructor sets only the keyword it is passed.
No flush happens between this construction and the `+= 1` at line 147, so
the insert-time column defaults have not been applied and every other
attribute reads `None`. -/
def newStudentAnalytics (student_id : Int) : StudentAnalytics :=
  { student_id := student_id
    total_flashcards_viewed := none
    total_tests_taken := none
    average_test_score := none
    weak_topics := none
    strong_topics := none
    learning_streak := none
    last_activity := none }

/-- Python `x + 1` where `x` is an Optional-int ORM attribute: `None + 1`
raises `TypeError`; on a present value it is ordinary addition.  This is
the read half of the `+= 1` statements at lines 147 and 165. -/
def pyAddOne (x : Option Nat) : Except PyError Nat :=
  match x with
  | none => .error .typeError
  | some n => .ok (n + 1)

/-- The persistent store the router reads and writes. -/
structure DB where
  test_results : List TestResult
  test_questions : List TestQuestion
  student_analytics : List StudentAnalytics
  next_test_result_id : Nat
deriving Repr

/-- Ordering `TestResult.completed_at.desc()`: row `a` comes no later than row `b`
in descending completion order. -/
def resultLe (a b : TestResult) : Prop :=
  b.completed_at ≤ a.completed_at

instance : DecidableRel resultLe := fun a b =>
  inferInstanceAs (Decidable (b.completed_at ≤ a.completed_at))

instance : IsTotal TestResult resultLe :=
  ⟨fun a b => le_total b.completed_at a.completed_at⟩

instance : IsTrans TestResult resultLe :=
  ⟨fun _ _ _ hab hbc => le_trans hbc hab⟩

/-- Query `db.query(TestResult).filter(student_id == sid).order_by(completed_at.desc())`
(lines 104-106 and 196-198): the student's results, most recent first. -/
def studentResults (db : DB) (student_id : Int) : List TestResult :=
  List.insertionSort resultLe
    (db.test_results.filter (fun r => r.student_id == student_id))

/-- The `.limit(5)` query at lines 104-106: at most the 5 most recent
results for the student. -/
def previousResults (db : DB) (student_id : Int) : List TestResult :=
  (studentResults db student_id).take 5

/-- The StudentAnalytics update at lines 147-167, applied to the fetched
record (or to the freshly constructed one, see `submit_test`), statement by
statement in source order:

* line 147: `analytics.total_tests_taken += 1` — reads the attribute, so on
  an instance whose counter is unset (the unflushed fresh instance) this
  raises `TypeError` and nothing below runs;
* line 148: `analytics.last_activity = datetime.utcnow()`
* lines 151-152: `all_scores = [r.score for r in previous_results] + [score]`,
  `analytics.average_test_score = sum(all_scores) / len(all_scores)`
* lines 155-158: per-topic accuracy `(correct / total) * 100`
* lines 160-161: `weak_topics`/`strong_topics` rebuilt from this submission
* lines 164-167: streak check reading `analytics.last_activity`, which the
  assignment at line 148 has already overwritten with `now`; the increment
  at line 165 again reads an Optional attribute. -/
def updateAnalytics (analytics0 : StudentAnalytics)
    (previous_results : List TestResult) (insights : Payload) (now : Int) :
    Except PyError StudentAnalytics :=
  match pyAddOne analytics0.total_tests_taken with
  | .error e => .error e
  | .ok n =>
    let analytics := { analytics0 with total_tests_taken := some n }
    let analytics := { analytics with last_activity := some now }
    let all_scores := previous_results.map (fun r => r.score) ++ [insights.score]
    let analytics := { analytics with
      average_test_score := some (all_scores.sum / (all_scores.length : ℚ)) }
    let topic_strengths := insights.topic_performance.map
      (fun p => (p.1, ((p.2.correct : ℚ) / (p.2.total : ℚ)) * 100))
    let analytics := { analytics with
      weak_topics := some ((topic_strengths.filter
        (fun (p : String × ℚ) => decide (p.2 < 70))).map (fun (p : String × ℚ) => p.1))
      strong_topics := some ((topic_strengths.filter
        (fun (p : String × ℚ) => decide (90 ≤ p.2))).map (fun (p : String × ℚ) => p.1)) }
    match analytics.last_activity with
    | none => .ok { analytics with learning_streak := some 1 }
    | some t =>
      if now - t ≤ 86400 then
        match pyAddOne analytics.learning_streak with
        | .error e => .error e
        | .ok s => .ok { analytics with learning_streak := some s }
      else
        .ok { analytics with learning_streak := some 1 }

/-- The condensed `analytics_summary` of the response (lines 174-180); it
serialises the attribute values as they stand after the update. -/
structure AnalyticsSummary where
  total_tests : Option Nat
  average_score : Option ℚ
  learning_streak : Option Nat
  weak_topics : Option (List String)
  strong_topics : Option (List String)
deriving DecidableEq, Repr

/-- The success body returned by `submit_test` (lines 171-181). -/
structure SubmitResponse where
  insights : Payload
  analytics_summary : AnalyticsSummary
deriving DecidableEq, Repr

/-- Embedding of `submit_test` (lines 96-181).  Returns the resulting store together
with the outcome.  An uncaught exception leaves the store unchanged: every
`db.add` happens inside the request's transaction and `db.commit()` at
line 169 is only reached on success, so the session rolls the writes back. -/
def submit_test (llm : Prompt → Except PyError String) (db : DB)
    (student_id test_id : Int) (test_submission : TestSubmission) (now : Int) :
    DB × Except PyError SubmitResponse :=
  let previous_results := previousResults db student_id
  match generate_ai_insights llm test_submission.questions previous_results with
  | .error e => (db, .error e)
  | .ok insights =>
    let rid := db.next_test_result_id
    let test_result : TestResult :=
      { id := rid
        student_id := student_id
        test_id := test_id
        score := insights.score
        completed_at := now
        ai_feedback := insights
        total_questions := test_submission.questions.length
        correct_answers := correctCount test_submission.questions
        topics_summary := insights.topic_performance
        time_taken := test_submission.time_taken }
    let new_questions := test_submission.questions.map (fun q =>
      { test_result_id := rid
        question_text := q.question_text
        correct_answer := q.correct_answer
        student_answer := q.student_answer
        is_correct := isCorrect q
        topic := q.topic
        subtopic := q.subtopic : TestQuestion })
    let existing := db.student_analytics.find? (fun a => a.student_id == student_id)
    let analytics0 := existing.getD (newStudentAnalytics student_id)
    match updateAnalytics analytics0 previous_results insights now with
    | .error e => (db, .error e)
    | .ok analytics =>
      let db' : DB :=
        { test_results := db.test_results ++ [test_result]
          test_questions := db.test_questions ++ new_questions
          student_analytics :=
            match existing with
            | some _ => db.student_analytics.map
                (fun a => if a.student_id == student_id then analytics else a)
            | none => db.student_analytics ++ [analytics]
          next_test_result_id := rid + 1 }
      (db', .ok
        { insights := insights
          analytics_summary :=
            { total_tests := analytics.total_tests_taken
              average_score := analytics.average_test_score
              learning_streak := analytics.learning_streak
              weak_topics := analytics.weak_topics
              strong_topics := analytics.strong_topics } })

/-- One element of `test_data` (lines 201-207). -/
structure TestDatum where
  date : Int
  score : ℚ
  topics : List String
  time_taken : Int
  insights : String
deriving DecidableEq, Repr

/-- The `overall_stats` block of the performance response (lines 223-230);
it serialises the stored attribute values as-is. -/
structure OverallStats where
  total_tests_taken : Option Nat
  average_score : Option ℚ
  learning_streak : Option Nat
  weak_topics : Option (List String)
  strong_topics : Option (List String)
  last_activity : Option Int
deriving DecidableEq, Repr

/-- The success body of `get_student_performance` (lines 222-233). -/
structure PerfResponse where
  overall_stats : OverallStats
  recent_tests : List TestDatum
  performance_chart : Option String
deriving DecidableEq, Repr

/-- Embedding of `get_student_performance` (lines 183-233).  `chart` is the plotly
collaborator, rendering the (date, score) series to an opaque artifact
(lines 210-218); it is invoked only when `test_data` is non-empty, and the
chart is `None` otherwise (lines 209, 219-220).  A missing analytics row
raises `HTTPException(404)` (lines 192-193). -/
def get_student_performance (chart : List (Int × ℚ) → String) (db : DB)
    (student_id : Int) : Except PyError PerfResponse :=
  match db.student_analytics.find? (fun a => a.student_id == student_id) with
  | none => .error (.httpException 404 "Student analytics not found")
  | some analytics =>
    let recent_tests := (studentResults db student_id).take 10
    let test_data := recent_tests.map (fun t =>
      { date := t.completed_at
        score := t.score
        topics := t.topics_summary.map (fun p => p.1)
        time_taken := t.time_taken
        insights := t.ai_feedback.analysis : TestDatum })
    let performance_chart :=
      if test_data.isEmpty then none
      else some (chart (test_data.map (fun d => (d.date, d.score))))
    .ok
      { overall_stats :=
          { total_tests_taken := analytics.total_tests_taken
            average_score := analytics.average_test_score
            learning_streak := analytics.learning_streak
            weak_topics := analytics.weak_topics
            strong_topics := analytics.strong_topics
            last_activity := analytics.last_activity }
        recent_tests := test_data
        performance_chart := performance_chart }

/-! ### Concrete records used to exercise the definitions -/

/-- A correctly answered algebra question. -/
def sampleQ : QuestionSubmission :=
  { question_text := "q1", correct_answer := "A", student_answer := "A",
    topic := "algebra", subtopic := "s" }

/-- An incorrectly answered algebra question. -/
def sampleWrongQ : QuestionSubmission :=
  { question_text := "q2", correct_answer := "A", student_answer := "B",
    topic := "algebra", subtopic := "s" }

/-- A question answered with the right letter in the wrong case. -/
def caseQ : QuestionSubmission :=
  { question_text := "q3", correct_answer := "A", student_answer := "a",
    topic := "algebra", subtopic := "s" }

/-- A two-question batch: one right, one wrong, same topic. -/
def sampleQs : List QuestionSubmission := [sampleQ, sampleWrongQ]

/-- An insight payload with the given score and no topics. -/
def samplePayload (s : ℚ) : Payload :=
  { analysis := "", topic_performance := [], score := s, time_taken := 0 }

/-- A persisted test result with the given id and score, completed at time `i`. -/
def sampleResult (i : Nat) (s : ℚ) : TestResult :=
  { id := i, student_id := 1, test_id := 1, score := s, completed_at := (i : Int),
    ai_feedback := samplePayload s, total_questions := 0, correct_answers := 0,
    topics_summary := [], time_taken := 0 }

/-- A hydrated analytics record whose last activity was at time 0, with
streak 3. -/
def staleAnalytics : StudentAnalytics :=
  { student_id := 1, total_flashcards_viewed := some 0, total_tests_taken := some 3,
    average_test_score := some 80, weak_topics := none, strong_topics := none,
    learning_streak := some 3, last_activity := some 0 }

/-- A hydrated analytics record carrying `weak_topics = ["algebra"]` from a
prior submission. -/
def algebraWeakAnalytics : StudentAnalytics :=
  { student_id := 1, total_flashcards_viewed := some 0, total_tests_taken := some 2,
    average_test_score := some 80, weak_topics := some ["algebra"], strong_topics := some [],
    learning_streak := some 1, last_activity := some 0 }

/-- A payload for a submission containing only topic "geometry" scored 60%
(3 of 5 correct). -/
def geometryPayload : Payload :=
  { analysis := "", score := 60, time_taken := 0,
    topic_performance := [("geometry", { correct := 3, total := 5, questions := [] })] }

/-- A charting collaborator returning a fixed artifact. -/
def constChart : List (Int × ℚ) → String := fun _ => "chart"

/-- A collaborator that always answers. -/
def okLLM : Prompt → Except PyError String := fun _ => .ok "text"

/-- A collaborator that always fails (timeout / rate limit). -/
def failLLM : Prompt → Except PyError String := fun _ => .error .serviceUnavailable

/-- A hydrated analytics record for student 7 with no test results on file. -/
def student7Analytics : StudentAnalytics :=
  { student_id := 7, total_flashcards_viewed := some 0, total_tests_taken := some 0,
    average_test_score := some 0, weak_topics := none, strong_topics := none,
    learning_streak := some 0, last_activity := some 0 }

/-- A store holding only student 7's analytics record and no tests. -/
def oneStudentDB : DB :=
  { test_results := [], test_questions := [], student_analytics := [student7Analytics],
    next_test_result_id := 0 }

/-- The topic bucket that grouping the one-question batch `[sampleWrongQ]`
produces: topic "algebra", 0 of 1 correct. -/
def wrongTopicData : TopicData :=
  { correct := 0, total := 1, questions := [detailOf sampleWrongQ] }

/-- Per-topic detail flags agree with exact string equality of the recorded
answers, for every bucket of an accumulator. -/
def detailsOk (acc : List (String × TopicData)) : Prop :=
  ∀ p ∈ acc, ∀ det ∈ p.2.questions,
    det.is_correct = (det.student_answer == det.correct_answer)

/-! ### Theorems -/

/-- Shared helper: for any non-empty question list, insight generation dies
at the `questions[0].time_taken` read with an `AttributeError`, whatever the
collaborator and history are. -/
theorem generate_ai_insights_err_of_ne_nil (llm : Prompt → Except PyError String)
    (questions : List QuestionSubmission) (previous_results : List TestResult)
    (h : questions ≠ []) :
    generate_ai_insights llm questions previous_results = .error .attributeError := by
  have hl : questions.length ≠ 0 := fun hl => h (List.length_eq_zero.mp hl)
  simp [generate_ai_insights, QuestionSubmission.time_taken_attr, hl]

/-- C2: the claim that the composer's payload carries the submission-level
`time_taken` fails on the code: the prompt (line 67) and payload (line 93)
read `questions[0].time_taken`, a field `QuestionSubmission` does not have,
so every non-empty submission raises `AttributeError` and no payload is
produced at all. -/
theorem insights_time_taken_attribute_error (llm : Prompt → Except PyError String)
    (questions : List QuestionSubmission) (previous_results : List TestResult)
    (h : questions ≠ []) :
    generate_ai_insights llm questions previous_results = .error .attributeError :=
  generate_ai_insights_err_of_ne_nil llm questions previous_results h

/-- Witness for C2's theorem at a concrete one-question submission. -/
theorem insights_time_taken_attribute_error_witness :
    ([sampleQ] ≠ ([] : List QuestionSubmission)) ∧
      generate_ai_insights okLLM [sampleQ] [] = .error .attributeError :=
  ⟨by simp, insights_time_taken_attribute_error okLLM [sampleQ] [] (by simp)⟩

/-- C3: an empty submission is not rejected with an InvalidInput-style
`HTTPException`; the division `correct_count / total_questions` at line 33
raises an unhandled `ZeroDivisionError`.  The store (in particular the
student's `StudentAnalytics` record) is left unmodified because the
transaction is never committed. -/
theorem empty_submission_zero_division (llm : Prompt → Except PyError String)
    (db : DB) (student_id test_id : Int) (tt now : Int) :
    submit_test llm db student_id test_id { questions := [], time_taken := tt } now
      = (db, .error .zeroDivisionError) := by
  simp [submit_test, generate_ai_insights]

/-- C8: with a collaborator that always fails, the error surfaced by
`submit_test` is the `AttributeError` from the prompt construction, not the
collaborator's failure — the Groq call at lines 82-87 is never reached —
and the store is returned unchanged (nothing is persisted). -/
theorem collaborator_failure_never_reached (db : DB) (student_id test_id : Int)
    (sub : TestSubmission) (now : Int) (h : sub.questions ≠ []) :
    submit_test failLLM db student_id test_id sub now = (db, .error .attributeError) := by
  simp [submit_test, generate_ai_insights_err_of_ne_nil failLLM sub.questions _ h]

/-- Witness for C8's theorem at a concrete one-question submission. -/
theorem collaborator_failure_never_reached_witness :
    (({ questions := [sampleQ], time_taken := 60 } : TestSubmission).questions ≠ []) ∧
      submit_test failLLM oneStudentDB 7 1 { questions := [sampleQ], time_taken := 60 } 0
        = (oneStudentDB, .error .attributeError) :=
  ⟨by simp, collaborator_failure_never_reached oneStudentDB 7 1 _ 0 (by simp)⟩

/-- C4: code bug evaluation.  The fresh instance created at line 144 has
its defaulted columns unset until a flush, and none happens before line
147, so `total_tests_taken` reads `None` there and the `+= 1` operates on
an uninitialized counter: it raises `TypeError`, and `total_tests_taken`
never becomes 1 on a first submission. -/
theorem first_submission_increment_typeerror (student_id : Int)
    (previous_results : List TestResult) (insights : Payload) (now : Int) :
    (newStudentAnalytics student_id).total_tests_taken = none ∧
    updateAnalytics (newStudentAnalytics student_id) previous_results insights now
      = .error .typeError :=
  ⟨rfl, rfl⟩

/-- C1: code bug evaluation.  Line 148 overwrites `last_activity` with the
current time before the streak check at lines 163-167 reads it, so on every
record the update runs to completion on (its counters present), the gap
compared is 0 ≤ 24h and the streak increments whatever the real gap was.
Concretely, a record whose previous activity was 25 hours ago and whose
streak is 3 ends with streak 4, where the claim requires a reset to 1. -/
theorem streak_gap_checked_against_new_timestamp :
    (∀ (a : StudentAnalytics) (previous_results : List TestResult)
        (insights : Payload) (now : Int) (n s : Nat),
      (updateAnalytics { a with total_tests_taken := some n, learning_streak := some s }
          previous_results insights now).map (fun r => r.learning_streak)
        = .ok (some (s + 1))) ∧
    (updateAnalytics staleAnalytics [] (samplePayload 50) 90000).map
        (fun r => r.learning_streak) = .ok (some 4) := by
  constructor
  · intro a previous_results insights now n s
    simp [updateAnalytics, pyAddOne, Except.map]
  · norm_num [updateAnalytics, pyAddOne, Except.map, staleAnalytics, samplePayload]

/-- Counterexample to C5 as stated: on a first submission (no
`StudentAnalytics` record yet) the update raises `TypeError` at the line-147
increment before line 152 ever assigns the average, so no average at all —
in particular not `mean({} ∪ {50}) = 50` — is set for that submission. -/
theorem sliding_window_average_cex :
    updateAnalytics (newStudentAnalytics 1) [] (samplePayload 50) 0 = .error .typeError ∧
    ∀ r, updateAnalytics (newStudentAnalytics 1) [] (samplePayload 50) 0 ≠ .ok r := by
  refine ⟨rfl, fun r h => ?_⟩
  rw [show updateAnalytics (newStudentAnalytics 1) [] (samplePayload 50) 0
      = .error .typeError from rfl] at h
  cases h

/-- C5 (amended): for every submission whose update completes — any
submission by a student with a previously persisted `StudentAnalytics`
record, whose counters are hydrated — `average_test_score` is recomputed as
the mean of the ≤5 most recent prior scores (the `limit(5)` query of lines
104-106) together with the current score, a sliding window of at most 6
values; on the spec's example (priors [80, 90, 70, 60, 100], new score 50)
it is 75. -/
theorem sliding_window_average (db : DB) (student_id : Int) (a : StudentAnalytics)
    (insights : Payload) (now : Int) (n s : Nat) :
    (previousResults db student_id).length ≤ 5 ∧
    (updateAnalytics { a with total_tests_taken := some n, learning_streak := some s }
        (previousResults db student_id) insights now).map (fun r => r.average_test_score)
      = .ok (some ((((previousResults db student_id).map (fun r => r.score)).sum
            + insights.score)
          / (((previousResults db student_id).length : ℚ) + 1))) ∧
    (updateAnalytics staleAnalytics
        [sampleResult 5 80, sampleResult 4 90, sampleResult 3 70,
         sampleResult 2 60, sampleResult 1 100]
        (samplePayload 50) 0).map (fun r => r.average_test_score) = .ok (some 75) := by
  refine ⟨?_, ?_, ?_⟩
  · simp [previousResults, List.length_take]
  · simp [updateAnalytics, pyAddOne, Except.map]
  · norm_num [updateAnalytics, pyAddOne, Except.map, staleAnalytics, sampleResult,
      samplePayload]

/-- Every record a successful update returns carries exactly the rebuilt
topic sets of lines 154-161 (the crash paths return no record at all). -/
theorem updateAnalytics_ok_topics (a : StudentAnalytics)
    (previous_results : List TestResult) (insights : Payload) (now : Int)
    (a' : StudentAnalytics)
    (hok : updateAnalytics a previous_results insights now = .ok a') :
    a'.weak_topics = some (((insights.topic_performance.map
        (fun p => (p.1, ((p.2.correct : ℚ) / (p.2.total : ℚ)) * 100))).filter
        (fun (p : String × ℚ) => decide (p.2 < 70))).map (fun (p : String × ℚ) => p.1)) ∧
    a'.strong_topics = some (((insights.topic_performance.map
        (fun p => (p.1, ((p.2.correct : ℚ) / (p.2.total : ℚ)) * 100))).filter
        (fun (p : String × ℚ) => decide (90 ≤ p.2))).map (fun (p : String × ℚ) => p.1)) := by
  unfold updateAnalytics at hok
  cases hn : pyAddOne a.total_tests_taken with
  | error e => rw [hn] at hok; cases hok
  | ok n =>
    rw [hn] at hok
    simp at hok
    cases hs : pyAddOne a.learning_streak with
    | error e => rw [hs] at hok; cases hok
    | ok s =>
      rw [hs] at hok
      simp at hok
      rw [← hok]
      exact ⟨rfl, rfl⟩

/-- Membership in the `weak_topics` a successful update writes: exactly the
current payload's topics whose accuracy is strictly below 70%, whatever the
record held before (lines 154-160). -/
theorem mem_weak_topics_iff (a : StudentAnalytics)
    (previous_results : List TestResult) (insights : Payload) (now : Int)
    (a' : StudentAnalytics)
    (hok : updateAnalytics a previous_results insights now = .ok a') (t : String) :
    t ∈ a'.weak_topics.getD []
      ↔ ∃ d, (t, d) ∈ insights.topic_performance
          ∧ ((d.correct : ℚ) / (d.total : ℚ)) * 100 < 70 := by
  rw [(updateAnalytics_ok_topics a previous_results insights now a' hok).1]
  simp
  constructor
  · rintro ⟨x, ⟨p, q, hpq, rfl, rfl⟩, hlt⟩
    exact ⟨q, hpq, hlt⟩
  · rintro ⟨d, hd, hlt⟩
    exact ⟨_, ⟨t, d, hd, rfl, rfl⟩, hlt⟩

/-- Membership in the `strong_topics` a successful update writes: exactly
the current payload's topics whose accuracy is at least 90% (lines 154-158
and 161). -/
theorem mem_strong_topics_iff (a : StudentAnalytics)
    (previous_results : List TestResult) (insights : Payload) (now : Int)
    (a' : StudentAnalytics)
    (hok : updateAnalytics a previous_results insights now = .ok a') (t : String) :
    t ∈ a'.strong_topics.getD []
      ↔ ∃ d, (t, d) ∈ insights.topic_performance
          ∧ 90 ≤ ((d.correct : ℚ) / (d.total : ℚ)) * 100 := by
  rw [(updateAnalytics_ok_topics a previous_results insights now a' hok).2]
  simp
  constructor
  · rintro ⟨x, ⟨p, q, hpq, rfl, rfl⟩, hge⟩
    exact ⟨q, hpq, hge⟩
  · rintro ⟨d, hd, hge⟩
    exact ⟨_, ⟨t, d, hd, rfl, rfl⟩, hge⟩

/-- Counterexample to C6 as stated: on a first submission (no
`StudentAnalytics` record yet) the update raises `TypeError` at the line-147
increment before lines 160-161 ever write the topic sets, so `weak_topics`
is not set to the submission's topics — nothing is set at all. -/
theorem topics_fully_replaced_cex :
    updateAnalytics (newStudentAnalytics 1) [] geometryPayload 0 = .error .typeError ∧
    ∀ r, updateAnalytics (newStudentAnalytics 1) [] geometryPayload 0 ≠ .ok r := by
  refine ⟨rfl, fun r h => ?_⟩
  rw [show updateAnalytics (newStudentAnalytics 1) [] geometryPayload 0
      = .error .typeError from rfl] at h
  cases h

/-- C6 (amended): for every submission whose update completes (existing
hydrated record), `weak_topics` is set to exactly the current submission's
topics with accuracy strictly below 70% and `strong_topics` to exactly those
with accuracy at least 90%, independently of whatever the record held
before; concretely, a record carrying `weak_topics=["algebra"]` that
receives a geometry-only submission scored 60% ends with
`weak_topics = ["geometry"]`. -/
theorem topics_fully_replaced :
    (∀ (a : StudentAnalytics) (previous_results : List TestResult)
        (insights : Payload) (now : Int) (a' : StudentAnalytics),
      updateAnalytics a previous_results insights now = .ok a' →
      ∀ t : String,
        (t ∈ a'.weak_topics.getD []
          ↔ ∃ d, (t, d) ∈ insights.topic_performance
              ∧ ((d.correct : ℚ) / (d.total : ℚ)) * 100 < 70) ∧
        (t ∈ a'.strong_topics.getD []
          ↔ ∃ d, (t, d) ∈ insights.topic_performance
              ∧ 90 ≤ ((d.correct : ℚ) / (d.total : ℚ)) * 100)) ∧
    (updateAnalytics algebraWeakAnalytics [] geometryPayload 0).map
        (fun r => r.weak_topics) = .ok (some ["geometry"]) := by
  constructor
  · intro a previous_results insights now a' hok t
    exact ⟨mem_weak_topics_iff a previous_results insights now a' hok t,
           mem_strong_topics_iff a previous_results insights now a' hok t⟩
  · norm_num [updateAnalytics, pyAddOne, Except.map, algebraWeakAnalytics, geometryPayload]

/-- Each step of the grouping loop preserves the per-question correctness
flags: every detail it stores has `is_correct` equal to the exact equality
of the recorded answers. -/
theorem detailsOk_addToTopic (acc : List (String × TopicData)) (q : QuestionSubmission)
    (H : detailsOk acc) : detailsOk (addToTopic acc q) := by
  have hnew : (detailOf q).is_correct
      = ((detailOf q).student_answer == (detailOf q).correct_answer) := rfl
  unfold addToTopic
  split
  · rintro p hp det hdet
    rcases List.mem_map.mp hp with ⟨p0, hp0, rfl⟩
    by_cases hb : p0.1 == q.topic
    · simp only [if_pos hb] at hdet
      rcases List.mem_append.mp hdet with h | h
      · exact H p0 hp0 det h
      · simp at h
        subst h
        exact hnew
    · simp only [if_neg hb] at hdet
      exact H p0 hp0 det hdet
  · rintro p hp det hdet
    rcases List.mem_append.mp hp with h | h
    · exact H p h det hdet
    · simp at h
      subst h
      simp at hdet
      subst hdet
      exact hnew

/-- Every detail stored in `topic_performance` carries the exact-equality
correctness flag. -/
theorem detailsOk_topicPerformance (qs : List QuestionSubmission) :
    detailsOk (topicPerformance qs) := by
  have aux : ∀ (l : List QuestionSubmission) (acc), detailsOk acc →
      detailsOk (l.foldl addToTopic acc) := by
    intro l
    induction l with
    | nil => intro acc H; exact H
    | cons q l ih => intro acc H; exact ih _ (detailsOk_addToTopic acc q H)
  exact aux qs [] (by intro p hp; simp at hp)

/-- C7: for a non-empty batch, the score is exactly
`100 * correct_count / total_count`, `correct_count` counts exactly the
questions whose `is_correct` flag holds, every stored flag is the exact
string equality of the answers, and case differences count as wrong (no
case-folding). -/
theorem scoring_engine_exact (qs : List QuestionSubmission) (h : qs ≠ []) :
    scoreOf qs = 100 * (correctCount qs : ℚ) / (qs.length : ℚ) ∧
    correctCount qs = (qs.filter isCorrect).length ∧
    (∀ t d, (t, d) ∈ topicPerformance qs → ∀ det ∈ d.questions,
      det.is_correct = (det.student_answer == det.correct_answer)) ∧
    isCorrect caseQ = false := by
  refine ⟨?_, ?_, ?_, rfl⟩
  · unfold scoreOf
    ring
  · exact List.countP_eq_length_filter isCorrect qs
  · intro t d htd det hdet
    exact detailsOk_topicPerformance qs (t, d) htd det hdet

/-- Witness for C7's theorem at the concrete two-question batch. -/
theorem scoring_engine_exact_witness :
    (sampleQs ≠ []) ∧
    (scoreOf sampleQs = 100 * (correctCount sampleQs : ℚ) / (sampleQs.length : ℚ) ∧
     correctCount sampleQs = (sampleQs.filter isCorrect).length ∧
     (∀ t d, (t, d) ∈ topicPerformance sampleQs → ∀ det ∈ d.questions,
        det.is_correct = (det.student_answer == det.correct_answer)) ∧
     isCorrect caseQ = false) :=
  ⟨by simp [sampleQs], scoring_engine_exact sampleQs (by simp [sampleQs])⟩

/-- One step of the grouping loop keeps the topic keys distinct: an
existing topic is updated in place, a new one is appended only when absent. -/
theorem keys_nodup_addToTopic (acc : List (String × TopicData)) (q : QuestionSubmission)
    (H : (acc.map (fun p => p.1)).Nodup) :
    ((addToTopic acc q).map (fun p => p.1)).Nodup := by
  unfold addToTopic
  split
  · have hkeys : ((acc.map (fun p =>
        if p.1 == q.topic then
          (p.1, { correct := p.2.correct + (if isCorrect q then 1 else 0)
                  total := p.2.total + 1
                  questions := p.2.questions ++ [detailOf q] : TopicData })
        else p)).map (fun p => p.1)) = acc.map (fun p => p.1) := by
      rw [List.map_map]
      refine List.map_congr_left ?_
      intro p _
      by_cases hb : p.1 = q.topic <;> simp [hb]
    rw [hkeys]
    exact H
  · next hany =>
    rw [List.map_append]
    simp only [List.map_cons, List.map_nil]
    rw [List.nodup_append]
    refine ⟨H, List.nodup_singleton _, ?_⟩
    intro a ha hb
    simp at hb
    subst hb
    rcases List.mem_map.mp ha with ⟨p, hp, hpt⟩
    exact hany (List.any_eq_true.mpr ⟨p, hp, by simp [hpt]⟩)

/-- The topics of a `topic_performance` mapping are pairwise distinct, as
the keys of a Python dict are. -/
theorem keys_nodup_topicPerformance (qs : List QuestionSubmission) :
    ((topicPerformance qs).map (fun p => p.1)).Nodup := by
  have aux : ∀ (l : List QuestionSubmission) (acc), (acc.map (fun p => p.1)).Nodup →
      ((l.foldl addToTopic acc).map (fun p => p.1)).Nodup := by
    intro l
    induction l with
    | nil => intro acc H; exact H
    | cons q l ih => intro acc H; exact ih _ (keys_nodup_addToTopic acc q H)
  exact aux qs [] (by simp)

/-- In an association list with distinct keys, a key determines its value. -/
theorem topicData_eq_of_nodup_keys {tp : List (String × TopicData)}
    (hnd : (tp.map (fun p => p.1)).Nodup) {t : String} {d1 d2 : TopicData}
    (h1 : (t, d1) ∈ tp) (h2 : (t, d2) ∈ tp) : d1 = d2 := by
  induction tp with
  | nil => cases h1
  | cons hd tl ih =>
    simp only [List.map_cons, List.nodup_cons] at hnd
    rcases List.mem_cons.mp h1 with e1 | m1
    · subst e1
      rcases List.mem_cons.mp h2 with e2 | m2
      · injection e2 with h1' h2'
        exact h2'.symm
      · exact absurd (List.mem_map.mpr ⟨(t, d2), m2, rfl⟩) hnd.1
    · rcases List.mem_cons.mp h2 with e2 | m2
      · subst e2
        exact absurd (List.mem_map.mpr ⟨(t, d1), m1, rfl⟩) hnd.1
      · exact ih hnd.2 m1 m2

/-- C10: after any submission whose update completes, no topic is
simultaneously weak and strong: the composer payload's topic mapping keys
are distinct, so each topic has one accuracy, which cannot be both below
70% and at least 90% (and a crashing update writes no sets at all). -/
theorem weak_strong_disjoint (a : StudentAnalytics)
    (previous_results : List TestResult) (now : Int) (analysis : String) (sc : ℚ)
    (qs : List QuestionSubmission) (t : String) (a' : StudentAnalytics)
    (hok : updateAnalytics a previous_results
        { analysis := analysis, topic_performance := topicPerformance qs,
          score := sc, time_taken := 0 } now = .ok a')
    (hw : t ∈ a'.weak_topics.getD []) :
    t ∉ a'.strong_topics.getD [] := by
  intro hs
  rcases (mem_weak_topics_iff a previous_results _ now a' hok t).mp hw
    with ⟨d, hd, hlt⟩
  rcases (mem_strong_topics_iff a previous_results _ now a' hok t).mp hs
    with ⟨d', hd', hge⟩
  have hdd : d = d' :=
    topicData_eq_of_nodup_keys (keys_nodup_topicPerformance qs) hd hd'
  subst hdd
  linarith

/-- Witness for C10's theorem: a one-question all-wrong algebra submission
applied to a hydrated record completes, puts "algebra" in `weak_topics`,
and leaves it out of `strong_topics`. -/
theorem weak_strong_disjoint_witness :
    ∃ a', updateAnalytics algebraWeakAnalytics []
        { analysis := "", topic_performance := topicPerformance [sampleWrongQ],
          score := 0, time_taken := 0 } 0 = .ok a' ∧
      "algebra" ∈ a'.weak_topics.getD [] ∧ "algebra" ∉ a'.strong_topics.getD [] := by
  obtain ⟨a', hok⟩ : ∃ a', updateAnalytics algebraWeakAnalytics []
      { analysis := "", topic_performance := topicPerformance [sampleWrongQ],
        score := 0, time_taken := 0 } 0 = .ok a' := ⟨_, rfl⟩
  have htp : topicPerformance [sampleWrongQ] = [("algebra", wrongTopicData)] := rfl
  have hw : "algebra" ∈ a'.weak_topics.getD [] := by
    refine (mem_weak_topics_iff algebraWeakAnalytics [] _ 0 a' hok "algebra").mpr
      ⟨wrongTopicData, ?_, by norm_num [wrongTopicData]⟩
    show ("algebra", wrongTopicData) ∈ topicPerformance [sampleWrongQ]
    rw [htp]
    exact List.mem_singleton.mpr rfl
  exact ⟨a', hok,
    hw, weak_strong_disjoint algebraWeakAnalytics [] 0 "" 0 [sampleWrongQ] "algebra" a' hok hw⟩

/-- The descending-by-completion query result is sorted most-recent-first. -/
theorem sorted_studentResults (db : DB) (sid : Int) :
    List.Sorted resultLe (studentResults db sid) :=
  List.sorted_insertionSort resultLe _

/-- C9: a student id with no `StudentAnalytics` record gets a 404-equivalent
error; a student id with a record gets the analytics snapshot plus at most
10 of their test results ordered most-recent-first, with the chart artifact
`none` exactly when the student has no test results. -/
theorem performance_query (chart : List (Int × ℚ) → String) (db : DB) (student_id : Int) :
    (db.student_analytics.find? (fun a => a.student_id == student_id) = none →
      get_student_performance chart db student_id
        = .error (.httpException 404 "Student analytics not found")) ∧
    (∀ a, db.student_analytics.find? (fun a => a.student_id == student_id) = some a →
      ∃ resp, get_student_performance chart db student_id = .ok resp ∧
        resp.overall_stats
          = { total_tests_taken := a.total_tests_taken
              average_score := a.average_test_score
              learning_streak := a.learning_streak
              weak_topics := a.weak_topics
              strong_topics := a.strong_topics
              last_activity := a.last_activity } ∧
        resp.recent_tests.length ≤ 10 ∧
        List.Sorted (fun x y => y.date ≤ x.date) resp.recent_tests ∧
        (∀ dtm ∈ resp.recent_tests, ∃ r ∈ db.test_results,
          r.student_id = student_id ∧ dtm.date = r.completed_at ∧ dtm.score = r.score) ∧
        (resp.performance_chart = none ↔
          db.test_results.filter (fun r => r.student_id == student_id) = [])) := by
  constructor
  · intro hnone
    simp [get_student_performance, hnone]
  · intro a ha
    unfold get_student_performance
    rw [ha]
    refine ⟨_, rfl, rfl, ?_, ?_, ?_, ?_⟩
    · simp [List.length_take]
    · rw [List.Sorted, List.pairwise_map]
      refine List.Pairwise.sublist (List.take_sublist 10 _) ?_
      exact sorted_studentResults db student_id
    · intro dtm hdtm
      rcases List.mem_map.mp hdtm with ⟨r, hr, rfl⟩
      have hr2 : r ∈ studentResults db student_id :=
        (List.take_sublist 10 _).mem hr
      have hr3 : r ∈ db.test_results.filter (fun r => r.student_id == student_id) :=
        (List.mem_insertionSort resultLe).mp hr2
      rcases List.mem_filter.mp hr3 with ⟨hmem, hsid⟩
      exact ⟨r, hmem, by simpa using hsid, rfl, rfl⟩
    · by_cases hfe : db.test_results.filter (fun r => r.student_id == student_id) = []
      · have hsr : studentResults db student_id = [] := by
          rw [studentResults, hfe]
          rfl
        simp [hsr, hfe]
      · have hlen : (studentResults db student_id).length
            = (db.test_results.filter (fun r => r.student_id == student_id)).length :=
          (List.perm_insertionSort resultLe _).length_eq
        have hpos : 0 < (db.test_results.filter (fun r => r.student_id == student_id)).length :=
          List.length_pos.mpr hfe
        have hne : ¬(((studentResults db student_id).take 10).map (fun t =>
            ({ date := t.completed_at
               score := t.score
               topics := t.topics_summary.map (fun p => p.1)
               time_taken := t.time_taken
               insights := t.ai_feedback.analysis } : TestDatum))).isEmpty := by
          rw [List.isEmpty_iff]
          intro hcon
          have hlc := congrArg List.length hcon
          rw [List.length_map, List.length_take, hlen] at hlc
          rw [inf_eq_min, List.length_nil] at hlc
          omega
        simp only [hne, if_false, Bool.false_eq_true]
        simp [hfe]

/-- Witness for C9's theorem: a store holding only student 7's record, with
no tests, on both the present-record path (student 7) and the missing-record
path (student 9). -/
theorem performance_query_witness :
    (oneStudentDB.student_analytics.find? (fun a => a.student_id == 7)
        = some student7Analytics) ∧
    (∃ resp, get_student_performance constChart oneStudentDB 7 = .ok resp ∧
      resp.overall_stats
        = { total_tests_taken := student7Analytics.total_tests_taken
            average_score := student7Analytics.average_test_score
            learning_streak := student7Analytics.learning_streak
            weak_topics := student7Analytics.weak_topics
            strong_topics := student7Analytics.strong_topics
            last_activity := student7Analytics.last_activity } ∧
      resp.recent_tests.length ≤ 10 ∧
      List.Sorted (fun x y => y.date ≤ x.date) resp.recent_tests ∧
      (∀ dtm ∈ resp.recent_tests, ∃ r ∈ oneStudentDB.test_results,
        r.student_id = 7 ∧ dtm.date = r.completed_at ∧ dtm.score = r.score) ∧
      (resp.performance_chart = none ↔
        oneStudentDB.test_results.filter (fun r => r.student_id == 7) = [])) ∧
    (oneStudentDB.student_analytics.find? (fun a => a.student_id == 9) = none ∧
      get_student_performance constChart oneStudentDB 9
        = .error (.httpException 404 "Student analytics not found")) :=
  ⟨rfl,
   (performance_query constChart oneStudentDB 7).2 student7Analytics rfl,
   rfl,
   (performance_query constChart oneStudentDB 9).1 rfl⟩
